import Mathlib

/-!
# kubicorn: the `list` command and the vendored tenant-configuration client

A shallow embedding of

* `cmd/list.go` (`RunList`): backend selection by the `StateStore` string,
  construction of the store handle, the single `List` call and the emission of
  the returned cluster names;
* `vendor/.../apimanagement/tenantconfiguration.go` (`Deploy`, `Save`,
  `Validate`): the synchronous validation prologue, the two buffered channels
  and the body of the spawned goroutine.

Collaborators that live outside these two files (the logger, `expandPath`,
`minio.New`, the store constructors and their `List` method, the autorest
pipeline) are parameters of the model; every call made to them is recorded, in
program order, in a trace of events.
-/

namespace Kubicorn

/-! ## `cmd/list.go` -/

/-- The fields of the embedded `Options` struct that `list.go` refers to. The
struct is declared in another file of the package; whatever else it holds is
carried in `other`. -/
structure Options (ρ : Type) where
  StateStore : String
  StateStorePath : String
  S3AccessKey : String
  S3SecretKey : String
  BucketEndpointURL : String
  BucketLocation : String
  BucketName : String
  other : ρ
  deriving DecidableEq, Repr

/-- Go: `type ListOptions struct { Options; Profile string }`. -/
structure ListOptions (ρ : Type) extends Options ρ where
  Profile : String
  deriving DecidableEq, Repr

/-- Go errors are represented by their `Error()` text. -/
abbrev GoError := String

/-- The value assigned to `stateStore`: which constructor was called and the
option struct it was given. `κ` is the type of the minio client. -/
inductive StoreHandle (κ : Type) where
  /-- Go: `fs.NewFileSystemStore(&fs.FileSystemStoreOptions{BasePath})`. -/
  | fileSystem (BasePath : String)
  /-- Go: `git.NewJSONGitStore(&git.JSONGitStoreOptions{BasePath})`. -/
  | jsonGit (BasePath : String)
  /-- Go: `jsonfs.NewJSONFileSystemStore(&jsonfs.JSONFileSystemStoreOptions{BasePath})`. -/
  | jsonFileSystem (BasePath : String)
  /-- Go: `s3.NewJSONFS3Store(&s3.JSONS3StoreOptions{Client, BasePath, BucketOptions})`. -/
  | jsonS3 (Client : κ) (BasePath : String)
      (EndpointURL : String) (BucketName : String) (BucketLocation : String)
  deriving DecidableEq, Repr

/-- The four backend kinds. -/
inductive StoreKind where
  | filesystem
  | gitBacked
  | jsonFilesystem
  | objectStorage
  deriving DecidableEq, Repr

/-- Kind of a handle. -/
def StoreHandle.kind {κ : Type} : StoreHandle κ → StoreKind
  | .fileSystem _ => .filesystem
  | .jsonGit _ => .gitBacked
  | .jsonFileSystem _ => .jsonFilesystem
  | .jsonS3 _ _ _ _ _ => .objectStorage

/-- The `BasePath` option a handle was constructed with. -/
def StoreHandle.basePath {κ : Type} : StoreHandle κ → String
  | .fileSystem p => p
  | .jsonGit p => p
  | .jsonFileSystem p => p
  | .jsonS3 _ p _ _ _ => p

/-- One observable step of `RunList`: a call to a collaborator. -/
inductive Event (κ : Type) where
  /-- Go: `logger.Info(msg)`. -/
  | loggerInfo (msg : String)
  /-- Go: `logger.Always(msg)`. -/
  | loggerAlways (msg : String)
  /-- Go: `fmt.Println(msg)`. -/
  | fmtPrintln (msg : String)
  /-- Go: `minio.New(endpoint, accessKey, secretKey, secure)`. -/
  | minioNew (endpoint : String) (accessKey : String) (secretKey : String) (secure : Bool)
  /-- A store constructor was called and returned this handle. -/
  | newStore (h : StoreHandle κ)
  /-- Go: `stateStore.List()` on this handle. -/
  | list (h : StoreHandle κ)
  deriving DecidableEq, Repr

/-- The collaborators of `RunList`. -/
structure Env (κ : Type) where
  /-- Go: `expandPath(path)`, declared in another file of package `cmd`. -/
  expandPath : String → String
  /-- Go: `minio.New(endpoint, accessKeyID, secretAccessKey, secure)`. -/
  minioNew : String → String → String → Bool → Except GoError κ
  /-- Go: the `List()` method of the constructed store. -/
  list : StoreHandle κ → Except GoError (List String)

/-- How a call of `RunList` ends. -/
inductive Outcome where
  /-- The function returned; `none` is Go's `nil` error. -/
  | returned (err : Option GoError)
  /-- A run-time panic: a method call on a nil interface value. -/
  | panicked
  deriving DecidableEq, Repr

/-- Everything observable after a call of `RunList`. -/
structure Run (κ ρ : Type) where
  /-- The struct `options` points to, after the call. -/
  options : ListOptions ρ
  /-- The calls made to collaborators, in program order. -/
  trace : List (Event κ)
  outcome : Outcome

/-- Go: `if !noHeaders { logger.Info(msg) }`. -/
def headerUnlessNoHeaders {κ : Type} (noHeaders : Bool) (msg : String) : List (Event κ) :=
  if !noHeaders then [.loggerInfo msg] else []

/-- Go: the body of `for _, cluster := range clusters`. -/
def emitCluster {κ : Type} (noHeaders : Bool) (cluster : String) : Event κ :=
  if !noHeaders then .loggerAlways cluster else .fmtPrintln cluster

/-- Go: lines 114-126 of `list.go`, from `stateStore.List()` on, for a non-nil
`stateStore`. `pre` is the trace so far. -/
def listAndPrint {κ ρ : Type} (env : Env κ) (noHeaders : Bool) (options : ListOptions ρ)
    (pre : List (Event κ)) (stateStore : StoreHandle κ) : Run κ ρ :=
  match env.list stateStore with
  | .error err =>
    { options := options
      trace := pre ++ [.list stateStore]
      outcome := .returned (some ("Unable to list clusters: " ++ err)) }
  | .ok clusters =>
    { options := options
      trace := pre ++ [.list stateStore] ++ clusters.map (emitCluster noHeaders)
      outcome := .returned none }

/-- Go: `func RunList(options *ListOptions) error`.

`noHeaders` and `lo` are the package-level variables the function reads;
`options` is the struct its (non-nil) argument points to. The function writes only
`options.StateStorePath` and reads from `lo` only fields it does not write, so
the model is the same whether or not `options` and `lo` are the same pointer. -/
def RunList {κ ρ : Type} (env : Env κ) (noHeaders : Bool) (lo : ListOptions ρ)
    (options : ListOptions ρ) : Run κ ρ :=
  let options : ListOptions ρ :=
    { options with StateStorePath := env.expandPath options.StateStorePath }
  if options.StateStore = "fs" then
    let stateStore : StoreHandle κ := .fileSystem options.StateStorePath
    listAndPrint env noHeaders options
      (headerUnlessNoHeaders noHeaders "Selected [fs] state store" ++ [.newStore stateStore])
      stateStore
  else if options.StateStore = "git" then
    let stateStore : StoreHandle κ := .jsonGit options.StateStorePath
    listAndPrint env noHeaders options
      (headerUnlessNoHeaders noHeaders "Selected [git] state store" ++ [.newStore stateStore])
      stateStore
  else if options.StateStore = "jsonfs" then
    let stateStore : StoreHandle κ := .jsonFileSystem options.StateStorePath
    listAndPrint env noHeaders options
      (headerUnlessNoHeaders noHeaders "Selected [jsonfs] state store" ++ [.newStore stateStore])
      stateStore
  else if options.StateStore = "s3" then
    match env.minioNew lo.BucketEndpointURL lo.S3AccessKey lo.S3SecretKey true with
    | .error err =>
      { options := options
        trace := [.minioNew lo.BucketEndpointURL lo.S3AccessKey lo.S3SecretKey true]
        outcome := .returned (some err) }
    | .ok client =>
      let stateStore : StoreHandle κ :=
        .jsonS3 client options.StateStorePath lo.BucketEndpointURL lo.BucketName lo.BucketLocation
      listAndPrint env noHeaders options
        [.minioNew lo.BucketEndpointURL lo.S3AccessKey lo.S3SecretKey true,
         .loggerInfo "Selected [s3] state store",
         .newStore stateStore]
        stateStore
  else
    -- no case of the switch matched: `stateStore` is still the nil interface
    -- value and `stateStore.List()` panics
    { options := options, trace := [], outcome := .panicked }

/-! ### Projections of a trace -/

/-- The handles returned by store constructors, in order. -/
def storesBuilt {κ : Type} : List (Event κ) → List (StoreHandle κ)
  | [] => []
  | .newStore h :: t => h :: storesBuilt t
  | _ :: t => storesBuilt t

/-- The handles `List()` was called on, in order. -/
def listCalls {κ : Type} : List (Event κ) → List (StoreHandle κ)
  | [] => []
  | .list h :: t => h :: listCalls t
  | _ :: t => listCalls t

/-- The construction and `List` events of a trace, in order. -/
def storeEvents {κ : Type} : List (Event κ) → List (Event κ)
  | [] => []
  | .newStore h :: t => .newStore h :: storeEvents t
  | .list h :: t => .list h :: storeEvents t
  | _ :: t => storeEvents t

/-- The arguments of the `logger.Always` calls, in order. -/
def loggedNames {κ : Type} : List (Event κ) → List String
  | [] => []
  | .loggerAlways s :: t => s :: loggedNames t
  | _ :: t => loggedNames t

/-- The arguments of the `fmt.Println` calls, in order. -/
def printedNames {κ : Type} : List (Event κ) → List String
  | [] => []
  | .fmtPrintln s :: t => s :: printedNames t
  | _ :: t => printedNames t

/-- The cluster names emitted on either sink, in order. -/
def emittedNames {κ : Type} : List (Event κ) → List String
  | [] => []
  | .loggerAlways s :: t => s :: emittedNames t
  | .fmtPrintln s :: t => s :: emittedNames t
  | _ :: t => emittedNames t

/-- The arguments of the `logger.Info` calls, in order. -/
def infoLines {κ : Type} : List (Event κ) → List String
  | [] => []
  | .loggerInfo s :: t => s :: infoLines t
  | _ :: t => infoLines t

/-- The argument lists of the `minio.New` calls, in order. -/
def clientRequests {κ : Type} : List (Event κ) → List (String × String × String × Bool)
  | [] => []
  | .minioNew e a s b :: t => (e, a, s, b) :: clientRequests t
  | _ :: t => clientRequests t

/-- The backend kinds the `switch` of `RunList` has a case for. -/
def recognisedKind (s : String) : Prop :=
  s = "fs" ∨ s = "git" ∨ s = "jsonfs" ∨ s = "s3"

instance (s : String) : Decidable (recognisedKind s) := by
  unfold recognisedKind; infer_instance

/-- The struct `options` points to once line 70 has run. -/
def expanded {κ ρ : Type} (env : Env κ) (options : ListOptions ρ) : ListOptions ρ :=
  { options with StateStorePath := env.expandPath options.StateStorePath }

/-! ### Concrete collaborators used to evaluate the model -/

/-- Sample `expandPath`: the current directory is spelled out, anything else is
left alone. -/
def sampleExpandPath (path : String) : String :=
  if path = "." then "/work" else path

/-- Sample collaborators: the client is represented by the endpoint it was
created for, client creation fails on an empty endpoint, and every store holds
the clusters `prod` and `dev`. -/
def sampleEnv : Env String where
  expandPath := sampleExpandPath
  minioNew := fun endpoint _ _ _ =>
    if endpoint = "" then .error "Endpoint:  does not follow ip address or domain name standards."
    else .ok endpoint
  list := fun _ => .ok ["prod", "dev"]

/-- Sample collaborators whose stores are all empty. -/
def emptyEnv : Env String :=
  { sampleEnv with list := fun _ => .ok [] }

/-- Sample collaborators whose stores cannot be read. -/
def brokenEnv : Env String :=
  { sampleEnv with list := fun _ => .error "open ./_state: permission denied" }

/-- Sample options of the given kind and endpoint; the state path is the current
directory and every other string is empty. -/
def sampleOptions (kind : String) (endpoint : String) : ListOptions Unit :=
  { StateStore := kind
    StateStorePath := "."
    S3AccessKey := ""
    S3SecretKey := ""
    BucketEndpointURL := endpoint
    BucketLocation := ""
    BucketName := ""
    other := ()
    Profile := "" }

/-! ## `apimanagement/tenantconfiguration.go` -/

namespace validation

/-- The constraint names `tenantconfiguration.go` uses
(`validation.MaxLength`, `validation.MinLength`, `validation.Pattern`,
`validation.Null`). -/
inductive ConstraintName where
  | MaxLength
  | MinLength
  | Pattern
  | Null
  deriving DecidableEq, Repr

/-- The `Rule` of a constraint, an `interface{}` in Go: an int, a bool or a
string. -/
inductive RuleValue where
  | int (n : Nat)
  | bool (b : Bool)
  | string (s : String)
  deriving DecidableEq, Repr

/-- Go: `validation.Constraint{Target, Name, Rule, Chain}`. `Chain` is nil in
every constraint of this file and is left out. -/
structure Constraint where
  Target : String
  Name : ConstraintName
  Rule : RuleValue
  deriving DecidableEq, Repr

/-- The values put under validation in this file: the string `serviceName`, and
the `parameters` struct, of which the constraints look at the pointer field
`Branch` only (`none` is the nil pointer). -/
inductive TargetValue where
  | string (s : String)
  | parameters (Branch : Option String)
  deriving DecidableEq, Repr

/-- Go: `validation.Validation{TargetValue, Constraints}`. -/
structure Validation where
  TargetValue : TargetValue
  Constraints : List Constraint
  deriving DecidableEq, Repr

/-- Modelled from the spec: `validation.Validate` and the checks behind it
belong to the vendored go-autorest package `validation`, which is not among the
sources; what one constraint means is taken from its name and rule as written
in the constraint tables of `tenantconfiguration.go`:
`MaxLength n` rejects a string of more than `n` bytes, `MinLength n` one of less
than `n` bytes, `Pattern p` one that the regular expression `p` does not match,
and `Null true` on `parameters.Branch` a nil `Branch`. A constraint that does
not apply to its target is rejected. The result is the text of the failure.
`matchString` is Go's `regexp.MatchString`. -/
def checkConstraint (matchString : String → String → Bool) :
    TargetValue → Constraint → Option GoError
  | .string s, ⟨target, .MaxLength, .int n⟩ =>
    if s.utf8ByteSize > n then
      some (target ++ ": value length must be less than or equal to " ++ toString n)
    else none
  | .string s, ⟨target, .MinLength, .int n⟩ =>
    if s.utf8ByteSize < n then
      some (target ++ ": value length must be greater than or equal to " ++ toString n)
    else none
  | .string s, ⟨target, .Pattern, .string p⟩ =>
    if !matchString p s then some (target ++ ": value doesn't match pattern " ++ p)
    else none
  | .parameters Branch, ⟨target, .Null, .bool required⟩ =>
    if target = "parameters.Branch" then
      if Branch.isNone && required then
        some (target ++ ": value can not be null; required parameter")
      else none
    else some (target ++ ": field doesn't exist")
  | _, ⟨target, _, _⟩ => some (target ++ ": constraint is not applicable")

/-- Modelled from the spec: the constraints of one target are checked in the
order written and the first failure is returned (go-autorest, not among the
sources). -/
def checkConstraints (matchString : String → String → Bool) (v : TargetValue) :
    List Constraint → Option GoError
  | [] => none
  | c :: cs =>
    match checkConstraint matchString v c with
    | some err => some err
    | none => checkConstraints matchString v cs

/-- Modelled from the spec: `validation.Validate(m []Validation) error` of the
vendored go-autorest package, not among the sources: the validations are
checked in the order written and the first failure is returned; `none` is the
nil error. -/
def Validate (matchString : String → String → Bool) : List Validation → Option GoError
  | [] => none
  | item :: rest =>
    match checkConstraints matchString item.TargetValue item.Constraints with
    | some err => some err
    | none => Validate matchString rest

end validation

namespace Apimanagement

/-- A Go channel of capacity `cap`: the values sent and not yet received, oldest
first, and whether it has been closed. A receiver gets the buffered values in
order and then, on a closed channel, nothing more. -/
structure Chan (α : Type) where
  cap : Nat
  buf : List α
  closed : Bool
  deriving DecidableEq, Repr

/-- Go: `make(chan T, cap)`. -/
def Chan.make {α : Type} (cap : Nat) : Chan α :=
  { cap := cap, buf := [], closed := false }

/-- Go: `c <- v` with no receiver waiting. `none` when the statement does not
complete: the channel is closed (a panic) or its buffer is full (it blocks). -/
def Chan.send {α : Type} (c : Chan α) (v : α) : Option (Chan α) :=
  if c.closed then none
  else if c.buf.length < c.cap then some { c with buf := c.buf ++ [v] }
  else none

/-- Go: `close(c)`. `none` when the channel is already closed (a panic). -/
def Chan.close {α : Type} (c : Chan α) : Option (Chan α) :=
  if c.closed then none else some { c with closed := true }

/-- The fields of `ManagementClient` that the preparers read. -/
structure TenantConfigurationClient where
  BaseURI : String
  SubscriptionID : String
  deriving DecidableEq, Repr

/-- Modelled from the spec: `DeployConfigurationParameters` is declared in
`models.go`, which is not among the sources; `Branch` is the one field this file
names, a pointer since it is checked against nil (`none`). -/
structure DeployConfigurationParameters where
  Branch : Option String
  deriving DecidableEq, Repr

/-- Modelled from the spec: `SaveConfigurationParameter` is declared in
`models.go`, which is not among the sources; `Branch` is the one field this file
names, a pointer since it is checked against nil (`none`). -/
structure SaveConfigurationParameter where
  Branch : Option String
  deriving DecidableEq, Repr

/-- The `parameters` argument of one of the three operations. -/
inductive Parameters where
  | deploy (p : DeployConfigurationParameters)
  | save (p : SaveConfigurationParameter)
  deriving DecidableEq, Repr

/-- The `Branch` field of the `parameters` argument. -/
def Parameters.Branch : Parameters → Option String
  | .deploy p => p.Branch
  | .save p => p.Branch

/-- The errors put on `errChan`. -/
inductive ClientError where
  /-- Go: `validation.NewErrorWithValidationError(err, packageType, method)`. -/
  | validationError (err : GoError) (packageType : String) (method : String)
  /-- Go: `autorest.NewErrorWithError(err, packageType, method, resp, message)`;
  `hasResponse` tells whether `resp` was non-nil. -/
  | detailedError (err : GoError) (packageType : String) (method : String)
      (hasResponse : Bool) (message : String)
  deriving DecidableEq, Repr

/-- The operation an error names. -/
def ClientError.method : ClientError → String
  | .validationError _ _ m => m
  | .detailedError _ _ m _ _ => m

/-- What a preparer hands to `autorest.CreatePreparer(...).Prepare`: a JSON POST
to the base URL with the path template filled from the path parameters, the
parameters as body and the API version as query. -/
structure RequestSpec where
  baseURL : String
  pathTemplate : String
  resourceGroupName : String
  serviceName : String
  subscriptionId : String
  body : Parameters
  apiVersion : String
  deriving DecidableEq, Repr

/-- Go: `OperationResultContract`, as far as this file touches it: the embedded
`autorest.Response` (the HTTP response, `none` when nil) and the unmarshalled
body. -/
structure OperationResultContract (R B : Type) where
  Response : Option R
  Body : Option B
  deriving DecidableEq, Repr

/-- One call into the autorest pipeline. -/
inductive Step (Q R : Type) where
  /-- Go: `preparer.Prepare(...)` in a `*Preparer` method. -/
  | prepare (spec : RequestSpec)
  /-- Go: `autorest.SendWithSender(client, req, ...)` in a `*Sender` method. -/
  | send (req : Q)
  /-- Go: `autorest.Respond(resp, ...)` in a `*Responder` method. -/
  | respond (resp : Option R)
  deriving DecidableEq, Repr

/-- The collaborators of the three operations: `Q` is the prepared request, `R`
the HTTP response, `B` the unmarshalled body. -/
structure Pipeline (Q R B : Type) where
  /-- Go: `regexp.MatchString(pattern, s)`, used by the `Pattern` constraint. -/
  matchString : String → String → Bool
  /-- Go: `autorest.CreatePreparer(...).Prepare(&http.Request{Cancel: cancel})`. -/
  prepare : RequestSpec → Except GoError Q
  /-- Go: `autorest.SendWithSender(...)`: a response, possibly nil, and an error,
  possibly nil. -/
  send : Q → Option R × Option GoError
  /-- Go: `autorest.Respond(resp, ..., autorest.ByUnmarshallingJSON(&result), ...)`. -/
  respond : Option R → Option B × Option GoError

/-- One of the three operations: the method name used in errors and the last
segment of the request path. -/
structure Operation where
  method : String
  pathSegment : String
  deriving DecidableEq, Repr

/-- Go: the package-and-type string every error of this client carries. -/
def packageType : String := "apimanagement.TenantConfigurationClient"

/-- Go: the argument of `validation.Validate` in `Deploy`, `Save` and `Validate`
(the same table in all three). -/
def constraints (serviceName : String) (parameters : Parameters) :
    List validation.Validation :=
  [ { TargetValue := .string serviceName
      Constraints :=
        [ { Target := "serviceName", Name := .MaxLength, Rule := .int 50 },
          { Target := "serviceName", Name := .MinLength, Rule := .int 1 },
          { Target := "serviceName", Name := .Pattern,
            Rule := .string "^[a-zA-Z](?:[a-zA-Z0-9-]*[a-zA-Z0-9])?$" } ] },
    { TargetValue := .parameters parameters.Branch
      Constraints :=
        [ { Target := "parameters.Branch", Name := .Null, Rule := .bool true } ] } ]

/-- Go: `DeployPreparer`, `SavePreparer`, `ValidatePreparer`, up to the call of
`preparer.Prepare`. -/
def requestSpec (op : Operation) (client : TenantConfigurationClient)
    (resourceGroupName serviceName : String) (parameters : Parameters) : RequestSpec :=
  { baseURL := client.BaseURI
    pathTemplate :=
      "/subscriptions/\x7bsubscriptionId\x7d/resourceGroups/\x7bresourceGroupName\x7d"
        ++ "/providers/Microsoft.ApiManagement/service/\x7bserviceName\x7d"
        ++ "/tenant/configuration/" ++ op.pathSegment
    resourceGroupName := resourceGroupName
    serviceName := serviceName
    subscriptionId := client.SubscriptionID
    body := parameters
    apiVersion := "2016-10-10" }

/-- The two channels of an operation and the pipeline calls made so far. -/
structure Channels (Q R B : Type) where
  resultChan : Chan (OperationResultContract R B)
  errChan : Chan ClientError
  steps : List (Step Q R)

/-- Go: the deferred function of the goroutine: the error, if any, goes to
`errChan`, the result to `resultChan`, and both channels are closed. -/
def deferred {Q R B : Type} (ch : Channels Q R B) (steps : List (Step Q R))
    (err : Option ClientError) (result : OperationResultContract R B) :
    Option (Channels Q R B) := do
  let errChan ← match err with
    | some e => ch.errChan.send e
    | none => some ch.errChan
  let resultChan ← ch.resultChan.send result
  let resultChan ← resultChan.close
  let errChan ← errChan.close
  pure { resultChan := resultChan, errChan := errChan, steps := ch.steps ++ steps }

/-- Go: the body of the `go func() { ... }()` of an operation, run to its end. -/
def goroutine {Q R B : Type} (env : Pipeline Q R B) (op : Operation)
    (client : TenantConfigurationClient) (resourceGroupName serviceName : String)
    (parameters : Parameters) (ch : Channels Q R B) : Option (Channels Q R B) :=
  let spec := requestSpec op client resourceGroupName serviceName parameters
  match env.prepare spec with
  | .error err =>
    deferred ch [.prepare spec]
      (some (.detailedError err packageType op.method false "Failure preparing request"))
      { Response := none, Body := none }
  | .ok req =>
    match env.send req with
    | (resp, some err) =>
      deferred ch [.prepare spec, .send req]
        (some (.detailedError err packageType op.method resp.isSome "Failure sending request"))
        { Response := resp, Body := none }
    | (resp, none) =>
      match env.respond resp with
      | (body, some err) =>
        deferred ch [.prepare spec, .send req, .respond resp]
          (some (.detailedError err packageType op.method resp.isSome
            "Failure responding to request"))
          { Response := resp, Body := body }
      | (body, none) =>
        deferred ch [.prepare spec, .send req, .respond resp] none
          { Response := resp, Body := body }

/-- What the caller holds when an operation returns: the two channels, and the
goroutine that was started, if one was. -/
structure Started (Q R B : Type) where
  channels : Channels Q R B
  spawned : Bool

/-- Go: the common text of `Deploy`, `Save` and `Validate`, up to the `return`.
`none` would mean that a channel statement of the prologue does not complete. -/
def start {Q R B : Type} (env : Pipeline Q R B) (op : Operation)
    (serviceName : String) (parameters : Parameters) : Option (Started Q R B) :=
  let resultChan : Chan (OperationResultContract R B) := Chan.make 1
  let errChan : Chan ClientError := Chan.make 1
  match validation.Validate env.matchString (constraints serviceName parameters) with
  | some err => do
    let errChan ← errChan.send (.validationError err packageType op.method)
    let errChan ← errChan.close
    let resultChan ← resultChan.close
    pure { channels := { resultChan := resultChan, errChan := errChan, steps := [] }
           spawned := false }
  | none =>
    some { channels := { resultChan := resultChan, errChan := errChan, steps := [] }
           spawned := true }

/-- An operation followed to the end of its goroutine, when it started one. -/
def run {Q R B : Type} (env : Pipeline Q R B) (op : Operation)
    (client : TenantConfigurationClient) (resourceGroupName serviceName : String)
    (parameters : Parameters) : Option (Channels Q R B) :=
  match start env op serviceName parameters with
  | none => none
  | some st =>
    if st.spawned then
      goroutine env op client resourceGroupName serviceName parameters st.channels
    else some st.channels

/-- Go: `func (client TenantConfigurationClient) Deploy(...)`. -/
def Deploy {Q R B : Type} (env : Pipeline Q R B) (client : TenantConfigurationClient)
    (resourceGroupName serviceName : String) (parameters : DeployConfigurationParameters) :
    Option (Channels Q R B) :=
  run env { method := "Deploy", pathSegment := "deploy" } client resourceGroupName serviceName
    (.deploy parameters)

/-- Go: `func (client TenantConfigurationClient) Save(...)`. -/
def Save {Q R B : Type} (env : Pipeline Q R B) (client : TenantConfigurationClient)
    (resourceGroupName serviceName : String) (parameters : SaveConfigurationParameter) :
    Option (Channels Q R B) :=
  run env { method := "Save", pathSegment := "save" } client resourceGroupName serviceName
    (.save parameters)

/-- Go: `func (client TenantConfigurationClient) Validate(...)`. -/
def Validate {Q R B : Type} (env : Pipeline Q R B) (client : TenantConfigurationClient)
    (resourceGroupName serviceName : String) (parameters : DeployConfigurationParameters) :
    Option (Channels Q R B) :=
  run env { method := "Validate", pathSegment := "validate" } client resourceGroupName
    serviceName (.deploy parameters)

end Apimanagement

/-! ### Concrete collaborators used to evaluate the model -/

namespace Apimanagement

/-- The strings of the shape `^[a-zA-Z](?:[a-zA-Z0-9-]*[a-zA-Z0-9])?$`: a letter,
then, if anything follows, letters, digits and hyphens ending in a letter or a
digit. -/
def serviceNameShape : List Char → Bool
  | [] => false
  | [c] => c.isAlpha
  | c :: rest =>
    c.isAlpha
      && rest.dropLast.all (fun d => d.isAlphanum || d == '-')
      && (rest.getLast?.map Char.isAlphanum).getD false

/-- Sample pipeline: the prepared request is the service name, every request is
answered with status 200 and the body `done`. -/
def samplePipeline : Pipeline String Nat String where
  matchString := fun _ s => serviceNameShape s.toList
  prepare := fun spec => .ok spec.serviceName
  send := fun _ => (some 200, none)
  respond := fun _ => (some "done", none)

/-- Sample client. -/
def sampleClient : TenantConfigurationClient :=
  { BaseURI := "https://management.azure.com", SubscriptionID := "sub-1" }

end Apimanagement

/-! ## Lemmas on traces -/

section TraceLemmas

variable {κ : Type}

@[simp] theorem storesBuilt_append (a b : List (Event κ)) :
    storesBuilt (a ++ b) = storesBuilt a ++ storesBuilt b := by
  induction a with
  | nil => rfl
  | cons e t ih => cases e <;> simp [storesBuilt, ih]

@[simp] theorem listCalls_append (a b : List (Event κ)) :
    listCalls (a ++ b) = listCalls a ++ listCalls b := by
  induction a with
  | nil => rfl
  | cons e t ih => cases e <;> simp [listCalls, ih]

@[simp] theorem storeEvents_append (a b : List (Event κ)) :
    storeEvents (a ++ b) = storeEvents a ++ storeEvents b := by
  induction a with
  | nil => rfl
  | cons e t ih => cases e <;> simp [storeEvents, ih]

@[simp] theorem loggedNames_append (a b : List (Event κ)) :
    loggedNames (a ++ b) = loggedNames a ++ loggedNames b := by
  induction a with
  | nil => rfl
  | cons e t ih => cases e <;> simp [loggedNames, ih]

@[simp] theorem printedNames_append (a b : List (Event κ)) :
    printedNames (a ++ b) = printedNames a ++ printedNames b := by
  induction a with
  | nil => rfl
  | cons e t ih => cases e <;> simp [printedNames, ih]

@[simp] theorem emittedNames_append (a b : List (Event κ)) :
    emittedNames (a ++ b) = emittedNames a ++ emittedNames b := by
  induction a with
  | nil => rfl
  | cons e t ih => cases e <;> simp [emittedNames, ih]

@[simp] theorem infoLines_append (a b : List (Event κ)) :
    infoLines (a ++ b) = infoLines a ++ infoLines b := by
  induction a with
  | nil => rfl
  | cons e t ih => cases e <;> simp [infoLines, ih]

/-- The header, when logged, is neither a construction nor a `List` call nor a
cluster name. -/
@[simp] theorem header_projections (noHeaders : Bool) (msg : String) :
    storesBuilt (headerUnlessNoHeaders (κ := κ) noHeaders msg) = []
    ∧ listCalls (headerUnlessNoHeaders (κ := κ) noHeaders msg) = []
    ∧ storeEvents (headerUnlessNoHeaders (κ := κ) noHeaders msg) = []
    ∧ loggedNames (headerUnlessNoHeaders (κ := κ) noHeaders msg) = []
    ∧ printedNames (headerUnlessNoHeaders (κ := κ) noHeaders msg) = []
    ∧ emittedNames (headerUnlessNoHeaders (κ := κ) noHeaders msg) = [] := by
  cases noHeaders <;>
    simp [headerUnlessNoHeaders, storesBuilt, listCalls, storeEvents, loggedNames,
      printedNames, emittedNames]

/-- The emission loop constructs nothing and calls `List` on nothing. -/
@[simp] theorem emit_store_projections (noHeaders : Bool) (clusters : List String) :
    storesBuilt (clusters.map (emitCluster (κ := κ) noHeaders)) = []
    ∧ listCalls (clusters.map (emitCluster (κ := κ) noHeaders)) = []
    ∧ storeEvents (clusters.map (emitCluster (κ := κ) noHeaders)) = []
    ∧ infoLines (clusters.map (emitCluster (κ := κ) noHeaders)) = [] := by
  induction clusters with
  | nil => simp [storesBuilt, listCalls, storeEvents, infoLines]
  | cons c t ih =>
    obtain ⟨h1, h2, h3, h4⟩ := ih
    cases noHeaders <;>
      simp_all [emitCluster, storesBuilt, listCalls, storeEvents, infoLines]

/-- The emission loop emits each name once, in order. -/
@[simp] theorem emittedNames_emit (noHeaders : Bool) (clusters : List String) :
    emittedNames (clusters.map (emitCluster (κ := κ) noHeaders)) = clusters := by
  induction clusters with
  | nil => rfl
  | cons c t ih => cases noHeaders <;> simp_all [emitCluster, emittedNames]

end TraceLemmas

/-! ## `RunList`, case by case -/

section RunListCases

variable {κ ρ : Type}

theorem RunList_fs (env : Env κ) (noHeaders : Bool) (lo options : ListOptions ρ)
    (hk : options.StateStore = "fs") :
    RunList env noHeaders lo options
      = listAndPrint env noHeaders (expanded env options)
          (headerUnlessNoHeaders noHeaders "Selected [fs] state store"
            ++ [.newStore (.fileSystem (env.expandPath options.StateStorePath))])
          (.fileSystem (env.expandPath options.StateStorePath)) := by
  simp [RunList, expanded, hk]

theorem RunList_git (env : Env κ) (noHeaders : Bool) (lo options : ListOptions ρ)
    (hk : options.StateStore = "git") :
    RunList env noHeaders lo options
      = listAndPrint env noHeaders (expanded env options)
          (headerUnlessNoHeaders noHeaders "Selected [git] state store"
            ++ [.newStore (.jsonGit (env.expandPath options.StateStorePath))])
          (.jsonGit (env.expandPath options.StateStorePath)) := by
  simp [RunList, expanded, hk]

theorem RunList_jsonfs (env : Env κ) (noHeaders : Bool) (lo options : ListOptions ρ)
    (hk : options.StateStore = "jsonfs") :
    RunList env noHeaders lo options
      = listAndPrint env noHeaders (expanded env options)
          (headerUnlessNoHeaders noHeaders "Selected [jsonfs] state store"
            ++ [.newStore (.jsonFileSystem (env.expandPath options.StateStorePath))])
          (.jsonFileSystem (env.expandPath options.StateStorePath)) := by
  simp [RunList, expanded, hk]

theorem RunList_s3_ok (env : Env κ) (noHeaders : Bool) (lo options : ListOptions ρ)
    (client : κ) (hk : options.StateStore = "s3")
    (hc : env.minioNew lo.BucketEndpointURL lo.S3AccessKey lo.S3SecretKey true = .ok client) :
    RunList env noHeaders lo options
      = listAndPrint env noHeaders (expanded env options)
          [.minioNew lo.BucketEndpointURL lo.S3AccessKey lo.S3SecretKey true,
           .loggerInfo "Selected [s3] state store",
           .newStore (.jsonS3 client (env.expandPath options.StateStorePath)
              lo.BucketEndpointURL lo.BucketName lo.BucketLocation)]
          (.jsonS3 client (env.expandPath options.StateStorePath)
              lo.BucketEndpointURL lo.BucketName lo.BucketLocation) := by
  simp [RunList, expanded, hk, hc]

theorem RunList_s3_error (env : Env κ) (noHeaders : Bool) (lo options : ListOptions ρ)
    (err : GoError) (hk : options.StateStore = "s3")
    (hc : env.minioNew lo.BucketEndpointURL lo.S3AccessKey lo.S3SecretKey true = .error err) :
    RunList env noHeaders lo options
      = { options := expanded env options
          trace := [.minioNew lo.BucketEndpointURL lo.S3AccessKey lo.S3SecretKey true]
          outcome := .returned (some err) } := by
  simp [RunList, expanded, hk, hc]

theorem RunList_unrecognised (env : Env κ) (noHeaders : Bool) (lo options : ListOptions ρ)
    (hk : ¬ recognisedKind options.StateStore) :
    RunList env noHeaders lo options
      = { options := expanded env options, trace := [], outcome := .panicked } := by
  simp only [recognisedKind, not_or] at hk
  obtain ⟨h1, h2, h3, h4⟩ := hk
  simp [RunList, expanded, h1, h2, h3, h4]

end RunListCases

/-! ## From `List()` on -/

section ListAndPrint

variable {κ ρ : Type}

theorem listAndPrint_ok (env : Env κ) (noHeaders : Bool) (options : ListOptions ρ)
    (pre : List (Event κ)) (stateStore : StoreHandle κ) (clusters : List String)
    (hl : env.list stateStore = .ok clusters) :
    listAndPrint env noHeaders options pre stateStore
      = { options := options
          trace := pre ++ [.list stateStore] ++ clusters.map (emitCluster noHeaders)
          outcome := .returned none } := by
  simp [listAndPrint, hl]

theorem listAndPrint_error (env : Env κ) (noHeaders : Bool) (options : ListOptions ρ)
    (pre : List (Event κ)) (stateStore : StoreHandle κ) (err : GoError)
    (hl : env.list stateStore = .error err) :
    listAndPrint env noHeaders options pre stateStore
      = { options := options
          trace := pre ++ [.list stateStore]
          outcome := .returned (some ("Unable to list clusters: " ++ err)) } := by
  simp [listAndPrint, hl]

theorem listAndPrint_storesBuilt (env : Env κ) (noHeaders : Bool) (options : ListOptions ρ)
    (pre : List (Event κ)) (stateStore : StoreHandle κ) :
    storesBuilt (listAndPrint env noHeaders options pre stateStore).trace = storesBuilt pre := by
  unfold listAndPrint
  cases env.list stateStore <;> simp [storesBuilt]

theorem listAndPrint_options (env : Env κ) (noHeaders : Bool) (options : ListOptions ρ)
    (pre : List (Event κ)) (stateStore : StoreHandle κ) :
    (listAndPrint env noHeaders options pre stateStore).options = options := by
  unfold listAndPrint
  cases env.list stateStore <;> rfl

/-- For a recognised kind (and, for `s3`, a client that could be created), the
rest of `RunList` is `listAndPrint` on the handle the matching case of the
switch assigns to `stateStore`, and nothing done before it is a cluster name. -/
theorem RunList_of_selected (env : Env κ) (noHeaders : Bool) (lo options : ListOptions ρ)
    (h : StoreHandle κ)
    (hsel :
      (options.StateStore = "fs"
        ∧ h = .fileSystem (env.expandPath options.StateStorePath))
      ∨ (options.StateStore = "git"
        ∧ h = .jsonGit (env.expandPath options.StateStorePath))
      ∨ (options.StateStore = "jsonfs"
        ∧ h = .jsonFileSystem (env.expandPath options.StateStorePath))
      ∨ (options.StateStore = "s3"
        ∧ ∃ client,
          env.minioNew lo.BucketEndpointURL lo.S3AccessKey lo.S3SecretKey true = .ok client
          ∧ h = .jsonS3 client (env.expandPath options.StateStorePath)
              lo.BucketEndpointURL lo.BucketName lo.BucketLocation)) :
    ∃ pre : List (Event κ),
      RunList env noHeaders lo options = listAndPrint env noHeaders (expanded env options) pre h
      ∧ emittedNames pre = [] ∧ loggedNames pre = [] ∧ printedNames pre = [] := by
  rcases hsel with ⟨hk, rfl⟩ | ⟨hk, rfl⟩ | ⟨hk, rfl⟩ | ⟨hk, client, hc, rfl⟩
  · exact ⟨_, RunList_fs env noHeaders lo options hk,
      by simp [emittedNames], by simp [loggedNames], by simp [printedNames]⟩
  · exact ⟨_, RunList_git env noHeaders lo options hk,
      by simp [emittedNames], by simp [loggedNames], by simp [printedNames]⟩
  · exact ⟨_, RunList_jsonfs env noHeaders lo options hk,
      by simp [emittedNames], by simp [loggedNames], by simp [printedNames]⟩
  · exact ⟨_, RunList_s3_ok env noHeaders lo options client hk hc,
      by simp [emittedNames], by simp [loggedNames], by simp [printedNames]⟩

end ListAndPrint

/-! ## The claims about `RunList` -/

section RunListClaims

variable {κ ρ : Type}

/-- C1 (the code departs from the claim): with `StateStore = "etcd"`, a kind the
switch has no case for, `RunList` does not return an error: no case assigns
`stateStore`, `stateStore.List()` is a method call on the nil interface value
and the call ends in a run-time panic. Nothing was constructed, listed or
printed before that. -/
theorem RunList_unknown_kind_panics :
    ¬ recognisedKind (sampleOptions "etcd" "").StateStore
    ∧ (RunList sampleEnv false (sampleOptions "fs" "") (sampleOptions "etcd" "")).outcome
        = Outcome.panicked
    ∧ (∀ err : Option GoError,
        (RunList sampleEnv false (sampleOptions "fs" "") (sampleOptions "etcd" "")).outcome
          ≠ Outcome.returned err)
    ∧ (RunList sampleEnv false (sampleOptions "fs" "") (sampleOptions "etcd" "")).trace = [] := by
  have hk : ¬ recognisedKind (sampleOptions "etcd" "").StateStore := by
    simp [recognisedKind, sampleOptions]
  rw [RunList_unrecognised sampleEnv false _ _ hk]
  exact ⟨hk, rfl, fun err h => Outcome.noConfusion h, rfl⟩

/-- C2: for a recognised kind (and, for `s3`, when `minio.New` succeeds),
`RunList` calls exactly one store constructor, of the kind selected by
`StateStore` and with `BasePath` the expanded `StateStorePath`, and then calls
`List` exactly once, on the handle that constructor returned. -/
theorem RunList_builds_one_store_and_lists_it_once
    (env : Env κ) (noHeaders : Bool) (lo options : ListOptions ρ)
    (hkind : recognisedKind options.StateStore)
    (hclient : options.StateStore = "s3" →
      ∃ client, env.minioNew lo.BucketEndpointURL lo.S3AccessKey lo.S3SecretKey true
        = .ok client) :
    ∃ h : StoreHandle κ,
      storeEvents (RunList env noHeaders lo options).trace = [.newStore h, .list h]
      ∧ storesBuilt (RunList env noHeaders lo options).trace = [h]
      ∧ listCalls (RunList env noHeaders lo options).trace = [h]
      ∧ h.basePath = env.expandPath options.StateStorePath
      ∧ (options.StateStore = "fs" → h.kind = .filesystem)
      ∧ (options.StateStore = "git" → h.kind = .gitBacked)
      ∧ (options.StateStore = "jsonfs" → h.kind = .jsonFilesystem)
      ∧ (options.StateStore = "s3" → h.kind = .objectStorage) := by
  rcases hkind with hk | hk | hk | hk
  · refine ⟨.fileSystem (env.expandPath options.StateStorePath), ?_⟩
    rw [RunList_fs env noHeaders lo options hk]
    unfold listAndPrint
    cases env.list (.fileSystem (env.expandPath options.StateStorePath)) <;>
      simp [storeEvents, storesBuilt, listCalls, StoreHandle.basePath, StoreHandle.kind, hk]
  · refine ⟨.jsonGit (env.expandPath options.StateStorePath), ?_⟩
    rw [RunList_git env noHeaders lo options hk]
    unfold listAndPrint
    cases env.list (.jsonGit (env.expandPath options.StateStorePath)) <;>
      simp [storeEvents, storesBuilt, listCalls, StoreHandle.basePath, StoreHandle.kind, hk]
  · refine ⟨.jsonFileSystem (env.expandPath options.StateStorePath), ?_⟩
    rw [RunList_jsonfs env noHeaders lo options hk]
    unfold listAndPrint
    cases env.list (.jsonFileSystem (env.expandPath options.StateStorePath)) <;>
      simp [storeEvents, storesBuilt, listCalls, StoreHandle.basePath, StoreHandle.kind, hk]
  · obtain ⟨client, hc⟩ := hclient hk
    refine ⟨.jsonS3 client (env.expandPath options.StateStorePath)
      lo.BucketEndpointURL lo.BucketName lo.BucketLocation, ?_⟩
    rw [RunList_s3_ok env noHeaders lo options client hk hc]
    unfold listAndPrint
    cases env.list (.jsonS3 client (env.expandPath options.StateStorePath)
        lo.BucketEndpointURL lo.BucketName lo.BucketLocation) <;>
      simp [storeEvents, storesBuilt, listCalls, StoreHandle.basePath, StoreHandle.kind, hk]

/-- Witness of C2: the `s3` kind with a client that can be created. -/
theorem RunList_builds_one_store_and_lists_it_once_witness :
    ∃ h : StoreHandle String,
      storeEvents (RunList sampleEnv true (sampleOptions "s3" "play.minio.io")
        (sampleOptions "s3" "play.minio.io")).trace = [.newStore h, .list h]
      ∧ storesBuilt (RunList sampleEnv true (sampleOptions "s3" "play.minio.io")
        (sampleOptions "s3" "play.minio.io")).trace = [h]
      ∧ listCalls (RunList sampleEnv true (sampleOptions "s3" "play.minio.io")
        (sampleOptions "s3" "play.minio.io")).trace = [h]
      ∧ h.basePath = sampleEnv.expandPath (sampleOptions "s3" "play.minio.io").StateStorePath
      ∧ ((sampleOptions "s3" "play.minio.io").StateStore = "fs" → h.kind = .filesystem)
      ∧ ((sampleOptions "s3" "play.minio.io").StateStore = "git" → h.kind = .gitBacked)
      ∧ ((sampleOptions "s3" "play.minio.io").StateStore = "jsonfs" → h.kind = .jsonFilesystem)
      ∧ ((sampleOptions "s3" "play.minio.io").StateStore = "s3" → h.kind = .objectStorage) :=
  RunList_builds_one_store_and_lists_it_once sampleEnv true
    (sampleOptions "s3" "play.minio.io") (sampleOptions "s3" "play.minio.io")
    (by simp [recognisedKind, sampleOptions])
    (fun _ => ⟨"play.minio.io", by simp [sampleEnv, sampleOptions]⟩)

/-- C3: for every recognised kind, with `h` the handle the matching case of the
switch constructs (for `s3`, from a client that `minio.New` returned), when
`List` on `h` returns no name and no error, `RunList` returns nil and emits no
cluster name. -/
theorem RunList_empty_list_is_success
    (env : Env κ) (noHeaders : Bool) (lo options : ListOptions ρ) (h : StoreHandle κ)
    (hsel :
      (options.StateStore = "fs"
        ∧ h = .fileSystem (env.expandPath options.StateStorePath))
      ∨ (options.StateStore = "git"
        ∧ h = .jsonGit (env.expandPath options.StateStorePath))
      ∨ (options.StateStore = "jsonfs"
        ∧ h = .jsonFileSystem (env.expandPath options.StateStorePath))
      ∨ (options.StateStore = "s3"
        ∧ ∃ client,
          env.minioNew lo.BucketEndpointURL lo.S3AccessKey lo.S3SecretKey true = .ok client
          ∧ h = .jsonS3 client (env.expandPath options.StateStorePath)
              lo.BucketEndpointURL lo.BucketName lo.BucketLocation))
    (hlist : env.list h = .ok []) :
    (RunList env noHeaders lo options).outcome = .returned none
    ∧ emittedNames (RunList env noHeaders lo options).trace = [] := by
  obtain ⟨pre, hrun, he, -, -⟩ := RunList_of_selected env noHeaders lo options h hsel
  rw [hrun, listAndPrint_ok env noHeaders _ pre h [] hlist]
  simp [emittedNames, he]

/-- Witness of C3: the `git` kind over an empty store. -/
theorem RunList_empty_list_is_success_witness :
    (RunList emptyEnv false (sampleOptions "fs" "") (sampleOptions "git" "")).outcome
      = .returned none
    ∧ emittedNames
        (RunList emptyEnv false (sampleOptions "fs" "") (sampleOptions "git" "")).trace = [] :=
  RunList_empty_list_is_success emptyEnv false (sampleOptions "fs" "") (sampleOptions "git" "")
    (.jsonGit "/work")
    (Or.inr (Or.inl ⟨by simp [sampleOptions],
      by simp [emptyEnv, sampleEnv, sampleExpandPath, sampleOptions]⟩))
    rfl

/-- C5: for the kinds `fs`, `git` and `jsonfs`, with `h` the handle the matching
case of the switch constructs, `RunList` returns an error exactly when `List` on
`h` returns one; the error it returns is then the single error
`"Unable to list clusters: "` followed by the text of the `List` error, and no
cluster name is emitted. -/
theorem RunList_fs_family_error_iff_list_error
    (env : Env κ) (noHeaders : Bool) (lo options : ListOptions ρ) (h : StoreHandle κ)
    (hsel :
      (options.StateStore = "fs"
        ∧ h = .fileSystem (env.expandPath options.StateStorePath))
      ∨ (options.StateStore = "git"
        ∧ h = .jsonGit (env.expandPath options.StateStorePath))
      ∨ (options.StateStore = "jsonfs"
        ∧ h = .jsonFileSystem (env.expandPath options.StateStorePath))) :
    ((∃ err, (RunList env noHeaders lo options).outcome = .returned (some err))
      ↔ (∃ err, env.list h = .error err))
    ∧ (∀ err, env.list h = .error err →
        (RunList env noHeaders lo options).outcome
          = .returned (some ("Unable to list clusters: " ++ err))
        ∧ emittedNames (RunList env noHeaders lo options).trace = []) := by
  obtain ⟨pre, hrun, he, -, -⟩ := RunList_of_selected env noHeaders lo options h
    (by
      rcases hsel with hs | hs | hs
      · exact Or.inl hs
      · exact Or.inr (Or.inl hs)
      · exact Or.inr (Or.inr (Or.inl hs)))
  rw [hrun]
  cases hl : env.list h with
  | error e =>
    rw [listAndPrint_error env noHeaders _ pre h e hl]
    refine ⟨⟨fun _ => ⟨e, rfl⟩, fun _ => ⟨_, rfl⟩⟩, ?_⟩
    intro err herr
    cases herr
    simp [emittedNames, he]
  | ok names =>
    rw [listAndPrint_ok env noHeaders _ pre h names hl]
    refine ⟨⟨?_, ?_⟩, ?_⟩
    · rintro ⟨err, herr⟩
      simp at herr
    · rintro ⟨err, herr⟩
      cases herr
    · intro err herr
      cases herr

/-- Witness of C5: the `fs` kind over a store that cannot be read. -/
theorem RunList_fs_family_error_iff_list_error_witness :
    ((∃ err, (RunList brokenEnv false (sampleOptions "fs" "") (sampleOptions "fs" "")).outcome
        = .returned (some err))
      ↔ (∃ err, brokenEnv.list (.fileSystem "/work") = .error err))
    ∧ (∀ err, brokenEnv.list (.fileSystem "/work") = .error err →
        (RunList brokenEnv false (sampleOptions "fs" "") (sampleOptions "fs" "")).outcome
          = .returned (some ("Unable to list clusters: " ++ err))
        ∧ emittedNames
          (RunList brokenEnv false (sampleOptions "fs" "") (sampleOptions "fs" "")).trace = []) :=
  RunList_fs_family_error_iff_list_error brokenEnv false (sampleOptions "fs" "")
    (sampleOptions "fs" "") (.fileSystem "/work")
    (Or.inl ⟨by simp [sampleOptions],
      by simp [brokenEnv, sampleEnv, sampleExpandPath, sampleOptions]⟩)

/-- C6: for the `s3` kind, when `minio.New` returns an error, `RunList` returns
that very error; no store constructor is called, `List` is not called and no
cluster name is emitted. -/
theorem RunList_s3_client_failure
    (env : Env κ) (noHeaders : Bool) (lo options : ListOptions ρ) (err : GoError)
    (hkind : options.StateStore = "s3")
    (hfail : env.minioNew lo.BucketEndpointURL lo.S3AccessKey lo.S3SecretKey true
      = .error err) :
    (RunList env noHeaders lo options).outcome = .returned (some err)
    ∧ storesBuilt (RunList env noHeaders lo options).trace = []
    ∧ listCalls (RunList env noHeaders lo options).trace = []
    ∧ emittedNames (RunList env noHeaders lo options).trace = [] := by
  rw [RunList_s3_error env noHeaders lo options err hkind hfail]
  simp [storesBuilt, listCalls, emittedNames]

/-- Witness of C6: the `s3` kind with an empty endpoint. -/
theorem RunList_s3_client_failure_witness :
    (RunList sampleEnv false (sampleOptions "s3" "") (sampleOptions "s3" "")).outcome
      = .returned (some "Endpoint:  does not follow ip address or domain name standards.")
    ∧ storesBuilt
        (RunList sampleEnv false (sampleOptions "s3" "") (sampleOptions "s3" "")).trace = []
    ∧ listCalls
        (RunList sampleEnv false (sampleOptions "s3" "") (sampleOptions "s3" "")).trace = []
    ∧ emittedNames
        (RunList sampleEnv false (sampleOptions "s3" "") (sampleOptions "s3" "")).trace = [] :=
  RunList_s3_client_failure sampleEnv false (sampleOptions "s3" "") (sampleOptions "s3" "")
    "Endpoint:  does not follow ip address or domain name standards."
    (by simp [sampleOptions])
    (by simp [sampleEnv, sampleOptions])

/-- C7 (the code departs from the claim): two calls of `RunList` with the same
`options` argument, whose endpoint is `args.example`, and two contents of the
package variable `lo`: the client is requested with the endpoint and keys of
`lo`, never with those of the argument, and the store is configured with the
endpoint of `lo`, so the two calls configure different backends. -/
theorem RunList_s3_reads_the_package_variable :
    clientRequests
        (RunList sampleEnv false (sampleOptions "fs" "lo-one.example")
          (sampleOptions "s3" "args.example")).trace
      = [("lo-one.example", "", "", true)]
    ∧ clientRequests
        (RunList sampleEnv false (sampleOptions "fs" "lo-two.example")
          (sampleOptions "s3" "args.example")).trace
      = [("lo-two.example", "", "", true)]
    ∧ storesBuilt
        (RunList sampleEnv false (sampleOptions "fs" "lo-one.example")
          (sampleOptions "s3" "args.example")).trace
      = [.jsonS3 "lo-one.example" "/work" "lo-one.example" "" ""]
    ∧ storesBuilt
        (RunList sampleEnv false (sampleOptions "fs" "lo-two.example")
          (sampleOptions "s3" "args.example")).trace
      = [.jsonS3 "lo-two.example" "/work" "lo-two.example" "" ""]
    ∧ (RunList sampleEnv false (sampleOptions "fs" "lo-one.example")
          (sampleOptions "s3" "args.example")).trace
      ≠ (RunList sampleEnv false (sampleOptions "fs" "lo-two.example")
          (sampleOptions "s3" "args.example")).trace := by
  have h1 := RunList_s3_ok sampleEnv false (sampleOptions "fs" "lo-one.example")
    (sampleOptions "s3" "args.example") "lo-one.example" (by simp [sampleOptions])
    (by simp [sampleEnv, sampleOptions])
  have h2 := RunList_s3_ok sampleEnv false (sampleOptions "fs" "lo-two.example")
    (sampleOptions "s3" "args.example") "lo-two.example" (by simp [sampleOptions])
    (by simp [sampleEnv, sampleOptions])
  rw [h1, h2]
  simp [listAndPrint, sampleEnv, sampleOptions, sampleExpandPath, clientRequests, storesBuilt,
    emitCluster]

/-- C8 (the code departs from the claim): with `noHeaders` true and the `s3` kind,
a successful `RunList` still calls `logger.Info("Selected [s3] state store")`:
that call is the only one of the four not guarded by `!noHeaders`. -/
theorem RunList_s3_logs_header_despite_noHeaders :
    (RunList sampleEnv true (sampleOptions "s3" "play.minio.io")
        (sampleOptions "s3" "play.minio.io")).outcome = .returned none
    ∧ infoLines
        (RunList sampleEnv true (sampleOptions "s3" "play.minio.io")
          (sampleOptions "s3" "play.minio.io")).trace
      = ["Selected [s3] state store"]
    ∧ infoLines
        (RunList sampleEnv true (sampleOptions "s3" "play.minio.io")
          (sampleOptions "fs" "play.minio.io")).trace
      = [] := by
  have h1 := RunList_s3_ok sampleEnv true (sampleOptions "s3" "play.minio.io")
    (sampleOptions "s3" "play.minio.io") "play.minio.io" (by simp [sampleOptions])
    (by simp [sampleEnv, sampleOptions])
  have h2 := RunList_fs sampleEnv true (sampleOptions "s3" "play.minio.io")
    (sampleOptions "fs" "play.minio.io") (by simp [sampleOptions])
  rw [h1, h2]
  simp [listAndPrint, sampleEnv, sampleOptions, sampleExpandPath, infoLines, emitCluster,
    headerUnlessNoHeaders]

/-- Under `noHeaders`, the three filesystem-family cases log no header. -/
theorem RunList_fs_family_no_header_under_noHeaders
    (env : Env κ) (lo options : ListOptions ρ)
    (hkind : options.StateStore = "fs" ∨ options.StateStore = "git"
      ∨ options.StateStore = "jsonfs") :
    infoLines (RunList env true lo options).trace = [] := by
  rcases hkind with hk | hk | hk
  · rw [RunList_fs env true lo options hk]
    unfold listAndPrint
    cases env.list (.fileSystem (env.expandPath options.StateStorePath)) <;>
      simp [infoLines, headerUnlessNoHeaders]
  · rw [RunList_git env true lo options hk]
    unfold listAndPrint
    cases env.list (.jsonGit (env.expandPath options.StateStorePath)) <;>
      simp [infoLines, headerUnlessNoHeaders]
  · rw [RunList_jsonfs env true lo options hk]
    unfold listAndPrint
    cases env.list (.jsonFileSystem (env.expandPath options.StateStorePath)) <;>
      simp [infoLines, headerUnlessNoHeaders]

/-- C9: after `RunList`, on every path, the struct `options` points to is the one
passed in with `StateStorePath` replaced by its expansion: `StateStore`, the
object-storage fields and every other field are unchanged. -/
theorem RunList_changes_only_StateStorePath
    (env : Env κ) (noHeaders : Bool) (lo options : ListOptions ρ) :
    (RunList env noHeaders lo options).options
      = { options with StateStorePath := env.expandPath options.StateStorePath }
    ∧ (RunList env noHeaders lo options).options.StateStorePath
      = env.expandPath options.StateStorePath
    ∧ (RunList env noHeaders lo options).options.StateStore = options.StateStore
    ∧ (RunList env noHeaders lo options).options.S3AccessKey = options.S3AccessKey
    ∧ (RunList env noHeaders lo options).options.S3SecretKey = options.S3SecretKey
    ∧ (RunList env noHeaders lo options).options.BucketEndpointURL = options.BucketEndpointURL
    ∧ (RunList env noHeaders lo options).options.BucketName = options.BucketName
    ∧ (RunList env noHeaders lo options).options.BucketLocation = options.BucketLocation
    ∧ (RunList env noHeaders lo options).options.other = options.other
    ∧ (RunList env noHeaders lo options).options.Profile = options.Profile := by
  have key : (RunList env noHeaders lo options).options = expanded env options := by
    by_cases hk : recognisedKind options.StateStore
    · rcases hk with hk | hk | hk | hk
      · rw [RunList_fs env noHeaders lo options hk, listAndPrint_options]
      · rw [RunList_git env noHeaders lo options hk, listAndPrint_options]
      · rw [RunList_jsonfs env noHeaders lo options hk, listAndPrint_options]
      · cases hc : env.minioNew lo.BucketEndpointURL lo.S3AccessKey lo.S3SecretKey true with
        | error err => rw [RunList_s3_error env noHeaders lo options err hk hc]
        | ok client =>
          rw [RunList_s3_ok env noHeaders lo options client hk hc, listAndPrint_options]
    · rw [RunList_unrecognised env noHeaders lo options hk]
  rw [key]
  simp [expanded]

end RunListClaims

/-! ## The validation prologue of the tenant-configuration client -/

namespace Apimanagement

section Prologue

variable {Q R B : Type}

/-- A string has at least as many bytes as characters. -/
theorem length_le_utf8ByteSize (s : String) : s.length ≤ s.utf8ByteSize := by
  have key : ∀ cs : List Char, cs.length ≤ String.utf8ByteSize.go cs := by
    intro cs
    induction cs with
    | nil => simp [String.utf8ByteSize.go]
    | cons c t ih =>
      have hc := Char.utf8Size_pos c
      simp only [String.utf8ByteSize.go, List.length_cons]
      omega
  exact key s.data

/-- The constraint table accepts exactly the service names of 1 to 50 bytes that
match the pattern, together with a non-nil `Branch`. -/
theorem Validate_constraints_eq_none_iff (matchString : String → String → Bool)
    (serviceName : String) (parameters : Parameters) :
    validation.Validate matchString (constraints serviceName parameters) = none
      ↔ (serviceName.utf8ByteSize ≤ 50 ∧ 1 ≤ serviceName.utf8ByteSize
          ∧ matchString "^[a-zA-Z](?:[a-zA-Z0-9-]*[a-zA-Z0-9])?$" serviceName = true
          ∧ parameters.Branch ≠ none) := by
  by_cases h1 : serviceName.utf8ByteSize > 50
  · simp [validation.Validate, validation.checkConstraints, validation.checkConstraint,
      constraints, h1]
  · by_cases h2 : serviceName.utf8ByteSize < 1
    · simp [validation.Validate, validation.checkConstraints, validation.checkConstraint,
        constraints, h1, h2]
    · cases h3 : matchString "^[a-zA-Z](?:[a-zA-Z0-9-]*[a-zA-Z0-9])?$" serviceName
      · simp [validation.Validate, validation.checkConstraints, validation.checkConstraint,
          constraints, h1, h2, h3]
      · cases h4 : parameters.Branch
        · simp [validation.Validate, validation.checkConstraints, validation.checkConstraint,
            constraints, h1, h2, h3, h4]
        · simp only [validation.Validate, validation.checkConstraints,
            validation.checkConstraint, constraints, h1, h2, h3, h4]
          simp
          omega

/-- When validation fails, an operation ends in its prologue: one validation
error naming the operation on the closed error channel, a closed and empty
result channel, and no call into the pipeline. -/
theorem run_of_validation_failure (env : Pipeline Q R B) (op : Operation)
    (client : TenantConfigurationClient) (resourceGroupName serviceName : String)
    (parameters : Parameters) (err : GoError)
    (hv : validation.Validate env.matchString (constraints serviceName parameters) = some err) :
    run env op client resourceGroupName serviceName parameters
      = some { resultChan := { cap := 1, buf := [], closed := true }
               errChan := { cap := 1
                            buf := [.validationError err packageType op.method]
                            closed := true }
               steps := [] } := by
  simp [run, start, hv, Chan.make, Chan.send, Chan.close]

end Prologue

/-- The prologue lets well-formed arguments through: with the service name
`svc-1` and a branch, `Deploy` starts its goroutine, which prepares, sends and
decodes one request and delivers one result and no error. -/
theorem Deploy_valid_arguments_reach_the_pipeline :
    Deploy samplePipeline sampleClient "rg" "svc-1" { Branch := some "master" }
      = some { resultChan := { cap := 1
                               buf := [{ Response := some 200, Body := some "done" }]
                               closed := true }
               errChan := { cap := 1, buf := [], closed := true }
               steps := [.prepare (requestSpec { method := "Deploy", pathSegment := "deploy" }
                            sampleClient "rg" "svc-1"
                            (.deploy { Branch := some "master" })),
                         .send "svc-1", .respond (some 200)] } := by
  have hv : validation.Validate samplePipeline.matchString
      (constraints "svc-1" (.deploy { Branch := some "master" })) = none := by
    rw [Validate_constraints_eq_none_iff]
    exact ⟨by decide, by decide, by decide, by simp [Parameters.Branch]⟩
  simp only [Deploy, run, start, hv]
  simp [goroutine, deferred, samplePipeline, Chan.make, Chan.send, Chan.close, requestSpec]

/-- C10: when `serviceName` is empty, or longer than 50 characters, or not matched
by `^[a-zA-Z](?:[a-zA-Z0-9-]*[a-zA-Z0-9])?$`, or `parameters.Branch` is nil, each
of `Deploy`, `Save` and `Validate` ends without any call into the pipeline (no
request prepared, none sent), with exactly one validation error naming the
operation on the error channel, which is closed, and with the result channel
closed and empty. -/
theorem rejects_invalid_arguments {Q R B : Type}
    (env : Pipeline Q R B) (client : TenantConfigurationClient)
    (resourceGroupName serviceName : String) (Branch : Option String)
    (hbad : serviceName = "" ∨ 50 < serviceName.length
      ∨ env.matchString "^[a-zA-Z](?:[a-zA-Z0-9-]*[a-zA-Z0-9])?$" serviceName = false
      ∨ Branch = none) :
    ∃ err : GoError,
      Deploy env client resourceGroupName serviceName { Branch := Branch }
        = some { resultChan := { cap := 1, buf := [], closed := true }
                 errChan := { cap := 1
                              buf := [.validationError err
                                "apimanagement.TenantConfigurationClient" "Deploy"]
                              closed := true }
                 steps := [] }
      ∧ Save env client resourceGroupName serviceName { Branch := Branch }
        = some { resultChan := { cap := 1, buf := [], closed := true }
                 errChan := { cap := 1
                              buf := [.validationError err
                                "apimanagement.TenantConfigurationClient" "Save"]
                              closed := true }
                 steps := [] }
      ∧ Validate env client resourceGroupName serviceName { Branch := Branch }
        = some { resultChan := { cap := 1, buf := [], closed := true }
                 errChan := { cap := 1
                              buf := [.validationError err
                                "apimanagement.TenantConfigurationClient" "Validate"]
                              closed := true }
                 steps := [] } := by
  have hfail : ∀ parameters : Parameters, parameters.Branch = Branch →
      validation.Validate env.matchString (constraints serviceName parameters) ≠ none := by
    intro parameters hb hnone
    rw [Validate_constraints_eq_none_iff] at hnone
    obtain ⟨hmax, hmin, hpat, hbr⟩ := hnone
    rcases hbad with h | h | h | h
    · subst h
      simp [String.utf8ByteSize, String.utf8ByteSize.go] at hmin
    · have := length_le_utf8ByteSize serviceName
      omega
    · rw [h] at hpat
      cases hpat
    · exact hbr (hb.trans h)
  have hsame : constraints serviceName (.save { Branch := Branch })
      = constraints serviceName (.deploy { Branch := Branch }) := rfl
  cases hv : validation.Validate env.matchString
      (constraints serviceName (.deploy { Branch := Branch })) with
  | none => exact absurd hv (hfail _ rfl)
  | some err =>
    refine ⟨err, ?_, ?_, ?_⟩
    · exact run_of_validation_failure env _ client resourceGroupName serviceName _ err hv
    · exact run_of_validation_failure env _ client resourceGroupName serviceName _ err
        (hsame ▸ hv)
    · exact run_of_validation_failure env _ client resourceGroupName serviceName _ err hv

/-- Witness of C10: the empty service name. -/
theorem rejects_invalid_arguments_witness :
    ∃ err : GoError,
      Deploy samplePipeline sampleClient "rg" "" { Branch := some "master" }
        = some { resultChan := { cap := 1, buf := [], closed := true }
                 errChan := { cap := 1
                              buf := [.validationError err
                                "apimanagement.TenantConfigurationClient" "Deploy"]
                              closed := true }
                 steps := [] }
      ∧ Save samplePipeline sampleClient "rg" "" { Branch := some "master" }
        = some { resultChan := { cap := 1, buf := [], closed := true }
                 errChan := { cap := 1
                              buf := [.validationError err
                                "apimanagement.TenantConfigurationClient" "Save"]
                              closed := true }
                 steps := [] }
      ∧ Validate samplePipeline sampleClient "rg" "" { Branch := some "master" }
        = some { resultChan := { cap := 1, buf := [], closed := true }
                 errChan := { cap := 1
                              buf := [.validationError err
                                "apimanagement.TenantConfigurationClient" "Validate"]
                              closed := true }
                 steps := [] } :=
  rejects_invalid_arguments samplePipeline sampleClient "rg" "" (some "master")
    (Or.inl rfl)

end Apimanagement

end Kubicorn
